import Mathlib

/-!
Shallow embedding of the Evidence & Argumentation Engine:
the Historical Matcher / similarity functions, the Performance Impact
Analyzer, the Code Metrics Analyzer, the Risk Aggregator
(evidence-extractor.ts, context-builder) and the Argument Miner
(argument-miner.ts: parser, graph builder, consensus calculator).

JavaScript strings are modelled as Lean strings over their character
lists; the regular-expression scans of the source are implemented as
explicit character scanners with the same leftmost / greedy /
backtracking semantics; JavaScript numbers are modelled as rationals
(with an extended type where the source can produce infinities).
External collaborators (version-control log access, the repository
file store) are passed in as explicit environment values, as the spec
describes them as opaque inputs.
-/

namespace Engine

/-! ## Character classes (JS regex classes) -/

/-- JS `\s` whitespace class (ASCII part, which is all the inputs use). -/
def jsIsSpace (c : Char) : Bool :=
  c == ' ' || c == '\t' || c == '\n' || c == '\r' || c == '\x0b' || c == '\x0c'

/-- JS `\w` word-character class: `[A-Za-z0-9_]`. -/
def isWordChar (c : Char) : Bool :=
  c.isAlphanum || c == '_'

/-- Class `[:\s]` used by the Toulmin label patterns. -/
def isColonSpace (c : Char) : Bool :=
  c == ':' || jsIsSpace c

/-! ## Generic scanning helpers -/

/-- Case-sensitive literal prefix: returns the remainder after the key. -/
def takeLit : List Char → List Char → Option (List Char)
  | [], s => some s
  | _ :: _, [] => none
  | k :: ks, c :: cs => if c == k then takeLit ks cs else none

/-- Case-insensitive literal prefix (key given in lowercase). -/
def takeLitCI : List Char → List Char → Option (List Char)
  | [], s => some s
  | _ :: _, [] => none
  | k :: ks, c :: cs => if c.toLower == k then takeLitCI ks cs else none

/-- First key (in order) whose literal prefix matches; JS alternation order. -/
def takeAnyLit (keys : List (List Char)) (s : List Char) : Option (List Char) :=
  match keys with
  | [] => none
  | k :: ks =>
    match takeLit k s with
    | some r => some r
    | none => takeAnyLit ks s

/-- `l.includes(sub)`: substring occurrence, as JS `String.prototype.includes`. -/
def subInList (sub : List Char) : List Char → Bool
  | [] => sub.isEmpty
  | c :: cs => (takeLit sub (c :: cs)).isSome || subInList sub cs

def jsIncludes (s sub : String) : Bool :=
  subInList sub.toList s.toList

/-- JS `String.prototype.trim` (ASCII whitespace). -/
def jsTrimList (l : List Char) : List Char :=
  ((l.dropWhile jsIsSpace).reverse.dropWhile jsIsSpace).reverse

def jsTrim (s : String) : String :=
  String.mk (jsTrimList s.toList)

/-- JS `String.prototype.toLowerCase` (ASCII). -/
def jsToLower (s : String) : String :=
  String.mk (s.toList.map Char.toLower)

/--
All matches of an anchored matcher, with the global-regex scan rule:
try at each position; after a match, continue right after it.
The matcher returns the payload and the remainder after the match;
a matcher that did not consume anything is treated as a failure.
The fuel argument (instantiated with the input length, which every
step strictly decreases) keeps the recursion structural, so that
concrete scans reduce inside the kernel.
-/
def scanAllFuel (f : List Char → Option (α × List Char)) :
    Nat → List Char → List α
  | _, [] => []
  | 0, _ :: _ => []
  | fuel + 1, c :: cs =>
    match f (c :: cs) with
    | some (a, rest) =>
      if rest.length < (c :: cs).length then
        a :: scanAllFuel f fuel rest
      else
        scanAllFuel f fuel cs
    | none => scanAllFuel f fuel cs

def scanAll (f : List Char → Option (α × List Char)) (l : List Char) : List α :=
  scanAllFuel f l.length l

/-- First match of an anchored matcher (JS non-global `String.match`). -/
def findFirst (f : List Char → Option (α × List Char)) (l : List Char) : Option α :=
  (scanAll f l).head?

/-- JS `String.prototype.split` on a (non-empty-match) regex. -/
def splitGoFuel (f : List Char → Option (Unit × List Char)) :
    Nat → List Char → List Char → List (List Char)
  | _, acc, [] => [acc.reverse]
  | 0, acc, _ :: _ => [acc.reverse]
  | fuel + 1, acc, c :: cs =>
    match f (c :: cs) with
    | some (_, rest) =>
      if rest.length < (c :: cs).length then
        acc.reverse :: splitGoFuel f fuel [] rest
      else
        splitGoFuel f fuel (c :: acc) cs
    | none => splitGoFuel f fuel (c :: acc) cs

def jsSplit (f : List Char → Option (Unit × List Char)) (l : List Char) :
    List (List Char) :=
  splitGoFuel f l.length [] l

/-! ## Token matchers used by the similarity functions -/

/-- Anchored `\b\w+\b`: a maximal word-character run. -/
def wordRunTok (s : List Char) : Option (List Char × List Char) :=
  let run := s.takeWhile isWordChar
  let rest := s.dropWhile isWordChar
  if run.isEmpty then none else some (run, rest)

/-- `diff.match(/\b\w+\b/g) || []` of `calculateDiffSimilarity`. -/
def wordTokens (s : String) : List String :=
  (scanAll wordRunTok s.toList).map String.mk

/-- Anchored `\s+`: a maximal whitespace run (the `split(/\s+/)` separator). -/
def wsRunTok (s : List Char) : Option (Unit × List Char) :=
  let run := s.takeWhile jsIsSpace
  let rest := s.dropWhile jsIsSpace
  if run.isEmpty then none else some ((), rest)

/-- `text.toLowerCase().split(/\s+/)` of `calculateSimilarity`. -/
def wsSplitLower (s : String) : List String :=
  (jsSplit wsRunTok (jsToLower s).toList).map String.mk

/-! ## The two token-set Jaccard similarities -/

/-- Token set of a diff, as in `calculateDiffSimilarity`. -/
def diffTokenSet (s : String) : Finset String :=
  (wordTokens s).toFinset

/--
`EvidenceExtractor.calculateDiffSimilarity` (evidence-extractor.ts):
Jaccard index over `\b\w+\b` token sets; `0` when the union is empty.
-/
def calculateDiffSimilarity (diff1 diff2 : String) : ℚ :=
  let tokens1 := diffTokenSet diff1
  let tokens2 := diffTokenSet diff2
  let inter := tokens1 ∩ tokens2
  let union := tokens1 ∪ tokens2
  if 0 < union.card then (inter.card : ℚ) / (union.card : ℚ) else 0

/-! ## Argument Miner data model (argument-miner interfaces) -/

/-- `Evidence.type` union. -/
inductive EvidenceType where
  | code
  | metric
  | documentation
  | historical
  | external
deriving DecidableEq, Repr

/-- `Evidence` interface. -/
structure Evidence where
  type : EvidenceType
  content : String
  source : String
  confidence : ℚ
deriving DecidableEq, Repr

/--
`ToulminArgument` interface.  `id` is produced by `crypto.randomUUID()`
and `timestamp` by `new Date()`; both are opaque to every computation,
so they are modelled as caller-supplied values.
-/
structure ToulminArgument where
  id : String
  agent : String
  timestamp : Nat
  claim : String
  grounds : List String
  warrant : String
  backing : List Evidence
  qualifier : String
  rebuttal : Option String
  strength : ℚ
deriving DecidableEq, Repr

/-- `ArgumentNode.type` union. -/
inductive Stance where
  | support
  | attack
  | neutral
deriving DecidableEq, Repr

/-- `ArgumentEdge.type` union. -/
inductive EdgeType where
  | supports
  | rebuts
  | undermines
  | qualifies
deriving DecidableEq, Repr

structure ArgumentNode where
  id : String
  argument : ToulminArgument
  type : Stance
deriving DecidableEq, Repr

/-- `ArgumentEdge`; `from`/`to` are Lean keywords, hence `fromId`/`toId`. -/
structure ArgumentEdge where
  fromId : String
  toId : String
  type : EdgeType
  strength : ℚ
deriving DecidableEq, Repr

structure ArgumentGraph where
  nodes : List ArgumentNode
  edges : List ArgumentEdge
deriving DecidableEq, Repr

structure ArgumentMetrics where
  totalArguments : Nat
  averageStrength : ℚ
  consensusLevel : ℚ
  conflictPoints : List String
  strongestArguments : List ToulminArgument
  weakestArguments : List ToulminArgument
deriving DecidableEq, Repr

/-! ## Argument Parser: section splitting (`splitIntoSections`) -/

/-- Anchored `#{1,3}\s+\w+` (markdown-header split marker). -/
def headerTok (s : List Char) : Option (Unit × List Char) :=
  let hashes := s.takeWhile (· == '#')
  let r1 := s.dropWhile (· == '#')
  if hashes.length == 0 || hashes.length > 3 then none
  else
    let ws := r1.takeWhile jsIsSpace
    let r2 := r1.dropWhile jsIsSpace
    if ws.isEmpty then none
    else
      let w := r2.takeWhile isWordChar
      let r3 := r2.dropWhile isWordChar
      if w.isEmpty then none else some ((), r3)

/-- Anchored `\n\n` (blank-line split marker). -/
def dblNlTok : List Char → Option (Unit × List Char)
  | '\n' :: '\n' :: rest => some ((), rest)
  | _ => none

/-- Anchored `---+` (horizontal-rule split marker): three or more dashes. -/
def hrTok (s : List Char) : Option (Unit × List Char) :=
  let ds := s.takeWhile (· == '-')
  let rest := s.dropWhile (· == '-')
  if ds.length ≥ 3 then some ((), rest) else none

/--
`ArgumentMiner.splitIntoSections`: successive splits on the three
markers, keeping after each pass only parts whose trimmed length
exceeds 50 characters.
-/
def splitIntoSections (output : String) : List (List Char) :=
  let pass := fun (sections : List (List Char))
      (marker : List Char → Option (Unit × List Char)) =>
    (sections.map (fun sec =>
      (jsSplit marker sec).filter (fun p => (jsTrimList p).length > 50))).flatten
  let s1 := pass [output.toList] headerTok
  let s2 := pass s1 dblNlTok
  pass s2 hrTok

/-! ## Argument Parser: Toulmin label extraction -/

/--
Backtracking step of `[:\s]+([^\n]+)`: `revRun` is the reversed
remaining separator run (the greedy `[:\s]+` consumption), `rest` what
follows.  Gives the capture start for the largest separator length
whose following character exists and is not a newline.
-/
def capStart : List Char → List Char → Option (List Char)
  | [], _ => none
  | c :: revRest, rest =>
    match rest.head? with
    | some ch => if ch ≠ '\n' then some rest else capStart revRest (c :: rest)
    | none => capStart revRest (c :: rest)

/--
Anchored `key[:\s]+([^\n]+)` for the first matching key (keys in JS
alternation order, lowercase; matching is case-insensitive, `/i`).
Payload is the capture (up to the end of the line).
-/
def labeledTok (keys : List (List Char)) (s : List Char) :
    Option (List Char × List Char) :=
  match keys with
  | [] => none
  | k :: ks =>
    match takeLitCI k s with
    | none => labeledTok ks s
    | some r1 =>
      let run := r1.takeWhile isColonSpace
      let r2 := r1.dropWhile isColonSpace
      if run.isEmpty then labeledTok ks s
      else
        match capStart run.reverse r2 with
        | none => labeledTok ks s
        | some st =>
          some (st.takeWhile (· ≠ '\n'), st.dropWhile (· ≠ '\n'))

/-- Anchored `[^.!?]+[.!?]+` (fallback sentence shape). -/
def sentenceTok (s : List Char) : Option (List Char × List Char) :=
  let isPunct := fun (c : Char) => c == '.' || c == '!' || c == '?'
  let a := s.takeWhile (fun c => !(isPunct c))
  let r1 := s.dropWhile (fun c => !(isPunct c))
  if a.isEmpty then none
  else
    let b := r1.takeWhile isPunct
    let r2 := r1.dropWhile isPunct
    if b.isEmpty then none else some (a ++ b, r2)

/-! ## Evidence extraction (`ArgumentMiner.extractEvidence`) -/

/-- The backtick character (code-span delimiter). -/
def bq : Char := Char.ofNat 96

/-- Hex-lowercase-or-digit class `[a-f0-9]`. -/
def isHexLow (c : Char) : Bool :=
  ('a' ≤ c && c ≤ 'f') || c.isDigit

/-- Finds the earliest triple-backtick and splits around it (lazy `[\s\S]*?`). -/
def findTriple : List Char → Option (List Char × List Char)
  | [] => none
  | c :: cs =>
    if c == bq then
      match cs with
      | c2 :: c3 :: rest =>
        if c2 == bq && c3 == bq then some ([], rest)
        else
          match findTriple cs with
          | some (content, after) => some (c :: content, after)
          | none => none
      | _ => none
    else
      match findTriple cs with
      | some (content, after) => some (c :: content, after)
      | none => none

/--
Anchored ``  `([^`]+)`|```[\s\S]*?```  `` (inline code span or fenced
block); payload is `match[1] || match[0]`.
-/
def codeTok (s : List Char) : Option (List Char × List Char) :=
  match s with
  | c :: cs =>
    if c == bq then
      let run := cs.takeWhile (· ≠ bq)
      let r1 := cs.dropWhile (· ≠ bq)
      if !run.isEmpty && r1.head? == some bq then
        some (run, r1.tail)
      else
        match cs with
        | c2 :: c3 :: rest =>
          if c2 == bq && c3 == bq then
            match findTriple rest with
            | some (content, after) =>
              some ([bq, bq, bq] ++ content ++ [bq, bq, bq], after)
            | none => none
          else none
        | _ => none
    else none
  | [] => none

/-- Anchored `(?:file|File):?\s*([^\s:]+):(\d+)`; payload `cap1:cap2`. -/
def fileRefTok (s : List Char) : Option (List Char × List Char) :=
  match takeAnyLit [['f','i','l','e'], ['F','i','l','e']] s with
  | none => none
  | some r0 =>
    let r1 := match r0 with
      | ':' :: rest => rest
      | _ => r0
    let r2 := r1.dropWhile jsIsSpace
    let cap1 := r2.takeWhile (fun c => !jsIsSpace c && c ≠ ':')
    let r3 := r2.dropWhile (fun c => !jsIsSpace c && c ≠ ':')
    if cap1.isEmpty then none
    else
      match r3 with
      | ':' :: r4 =>
        let digits := r4.takeWhile Char.isDigit
        let r5 := r4.dropWhile Char.isDigit
        if digits.isEmpty then none
        else some (cap1 ++ [':'] ++ digits, r5)
      | _ => none

/-- Anchored `(\d+(?:\.\d+)?)\s*(%|ms|MB|ops\/sec)`; payload `match[0]`. -/
def metricTok (s : List Char) : Option (List Char × List Char) :=
  let ds := s.takeWhile Char.isDigit
  let r1 := s.dropWhile Char.isDigit
  if ds.isEmpty then none
  else
    let frac : List Char × List Char :=
      match r1 with
      | '.' :: r2 =>
        let fs := r2.takeWhile Char.isDigit
        if fs.isEmpty then ([], r1)
        else ('.' :: fs, r2.dropWhile Char.isDigit)
      | _ => ([], r1)
    let ws := frac.2.takeWhile jsIsSpace
    let r3 := frac.2.dropWhile jsIsSpace
    match takeAnyLit [['%'], ['m','s'], ['M','B'], ['o','p','s','/','s','e','c']] r3 with
    | none => none
    | some r4 =>
      let unitLen := r3.length - r4.length
      some (ds ++ frac.1 ++ ws ++ r3.take unitLen, r4)

/-- Anchored `\[([^\]]+)\]\(([^)]+)\)`; payload (label, target). -/
def citeTok (s : List Char) : Option ((List Char × List Char) × List Char) :=
  match s with
  | '[' :: r0 =>
    let cap1 := r0.takeWhile (· ≠ ']')
    let r1 := r0.dropWhile (· ≠ ']')
    if cap1.isEmpty then none
    else
      match r1 with
      | ']' :: '(' :: r2 =>
        let cap2 := r2.takeWhile (· ≠ ')')
        let r3 := r2.dropWhile (· ≠ ')')
        if cap2.isEmpty then none
        else
          match r3 with
          | ')' :: r4 => some ((cap1, cap2), r4)
          | _ => none
      | _ => none
  | _ => none

/-- Anchored `(?:commit|Commit)\s+([a-f0-9]{7,40})`; payload the hash. -/
def histTok (s : List Char) : Option (List Char × List Char) :=
  match takeAnyLit [['c','o','m','m','i','t'], ['C','o','m','m','i','t']] s with
  | none => none
  | some r0 =>
    let ws := r0.takeWhile jsIsSpace
    let r1 := r0.dropWhile jsIsSpace
    if ws.isEmpty then none
    else
      let hx := r1.takeWhile isHexLow
      let r2 := r1.dropWhile isHexLow
      if hx.length < 7 then none
      else some (hx.take 40, hx.drop 40 ++ r2)

/--
`ArgumentMiner.extractEvidence`: the five evidence shapes, each scanned
globally over the text, appended in the fixed source order.
-/
def extractEvidence (text : List Char) : List Evidence :=
  ((scanAll codeTok text).map fun content =>
    { type := EvidenceType.code, content := String.mk content,
      source := "inline", confidence := 9/10 }) ++
  ((scanAll fileRefTok text).map fun content =>
    { type := EvidenceType.code, content := String.mk content,
      source := "file", confidence := 19/20 }) ++
  ((scanAll metricTok text).map fun content =>
    { type := EvidenceType.metric, content := String.mk content,
      source := "measurement", confidence := 17/20 }) ++
  ((scanAll citeTok text).map fun caps =>
    { type := EvidenceType.external, content := String.mk caps.1,
      source := String.mk caps.2, confidence := 4/5 }) ++
  ((scanAll histTok text).map fun content =>
    { type := EvidenceType.historical, content := String.mk content,
      source := "git", confidence := 9/10 })

/-! ## Argument Parser (`extractToulminComponents`, `parseAgentOutput`) -/

/--
`ArgumentMiner.extractToulminComponents`: explicit `claim:` / `grounds:`
/ `warrant:` labels, first-sentence fallback for the claim, embedded
evidence as backing; `none` when no claim is found.  The source
declares `backing:`/`qualifier:`/`rebuttal:` label patterns but never
applies them, so `qualifier` stays empty and `rebuttal` stays absent.
-/
def extractToulminComponents (sect : List Char) (agentName : String)
    (id : String) (now : Nat) : Option ToulminArgument :=
  let claimCap := findFirst (labeledTok [['c','l','a','i','m']]) sect
  let claim0 := match claimCap with
    | some c => String.mk (jsTrimList c)
    | none => ""
  let grounds := (scanAll
    (labeledTok [['g','r','o','u','n','d','s'], ['g','r','o','u','n','d']])
    sect).map (fun g => String.mk (jsTrimList g))
  let warrant := match findFirst (labeledTok [['w','a','r','r','a','n','t']]) sect with
    | some w => String.mk (jsTrimList w)
    | none => ""
  let claim1 :=
    if claim0 = "" then
      match findFirst sentenceTok sect with
      | some st => String.mk (jsTrimList st)
      | none => claim0
    else claim0
  let backing := extractEvidence sect
  if claim1 = "" then none
  else some
    { id := id, agent := agentName, timestamp := now, claim := claim1,
      grounds := grounds, warrant := warrant, backing := backing,
      qualifier := "", rebuttal := none, strength := 0 }

/--
`ArgumentMiner.parseAgentOutput`: split into sections, extract one
argument per section that yields a claim.  Fresh UUIDs and the clock
are modelled by the `ids` supply and the `now` value.
-/
def parseAgentOutput (ids : Nat → String) (now : Nat) (agentName : String)
    (output : String) : List ToulminArgument :=
  (splitIntoSections output).enum.filterMap fun p =>
    extractToulminComponents p.2 agentName (ids p.1) now

/-- Token set of a claim, as in `ArgumentMiner.calculateSimilarity`. -/
def claimTokenSet (s : String) : Finset String :=
  (wsSplitLower s).toFinset

/--
`ArgumentMiner.calculateSimilarity` (argument-miner): Jaccard index over
lowercased whitespace-split token sets; `0` when the union is empty.
-/
def calculateSimilarity (text1 text2 : String) : ℚ :=
  let tokens1 := claimTokenSet text1
  let tokens2 := claimTokenSet text2
  let inter := tokens1 ∩ tokens2
  let union := tokens1 ∪ tokens2
  if 0 < union.card then (inter.card : ℚ) / (union.card : ℚ) else 0

/-! ## Argument Graph Builder -/

/--
`ArgumentMiner.classifyArgument`: stance from cue-phrase regex tests
(`/i`, so on the lowercased claim), negatives checked first.
-/
def classifyArgument (argument : ToulminArgument) : Stance :=
  let lc := jsToLower argument.claim
  let negativePhrases := ["should not", "must not", "avoid", "prevent",
    "dangerous", "vulnerable", "risk"]
  let positivePhrases := ["should", "must", "improve", "enhance",
    "benefit", "secure", "safe"]
  if negativePhrases.any (fun w => jsIncludes lc w) then Stance.attack
  else if positivePhrases.any (fun w => jsIncludes lc w) then Stance.support
  else Stance.neutral

/-- `ArgumentMiner.areConflicting`: opposite-word pairs in the two claims. -/
def areConflicting (arg1 arg2 : ToulminArgument) : Bool :=
  let opposites := [("approve", "reject"), ("allow", "deny"),
    ("enable", "disable"), ("include", "exclude")]
  let c1 := jsToLower arg1.claim
  let c2 := jsToLower arg2.claim
  opposites.any fun p =>
    (jsIncludes c1 p.1 && jsIncludes c2 p.2) ||
    (jsIncludes c1 p.2 && jsIncludes c2 p.1)

/--
`ArgumentMiner.analyzeRelationship`: rebuts (direct reference), else
supports (claim similarity above 0.7), else undermines (conflicting
claims), else no edge.
-/
def analyzeRelationship (arg1 arg2 : ToulminArgument) : Option ArgumentEdge :=
  if jsIncludes arg2.claim arg1.agent ||
     (match arg2.rebuttal with
      | some r => jsIncludes r (String.mk (arg1.claim.toList.take 20))
      | none => false) then
    some { fromId := arg2.id, toId := arg1.id,
           type := EdgeType.rebuts, strength := 4/5 }
  else
    let similarity := calculateSimilarity arg1.claim arg2.claim
    if 7/10 < similarity then
      some { fromId := arg1.id, toId := arg2.id,
             type := EdgeType.supports, strength := similarity }
    else if areConflicting arg1 arg2 then
      some { fromId := arg1.id, toId := arg2.id,
             type := EdgeType.undermines, strength := 7/10 }
    else none

/-- The index pairs `(i, j)` with `i < j`, in the nested-loop order. -/
def offDiagPairs : List α → List (α × α)
  | [] => []
  | x :: xs => (xs.map fun y => (x, y)) ++ offDiagPairs xs

/--
`ArgumentMiner.buildArgumentGraph`: nodes for every argument, one
relationship check per unordered pair `(i, j)` with `i < j`; the graph
is rebuilt from scratch.
-/
def buildArgumentGraph (args : List ToulminArgument) : ArgumentGraph :=
  { nodes := args.map fun arg =>
      { id := arg.id, argument := arg, type := classifyArgument arg }
    edges := (offDiagPairs args).filterMap fun p =>
      analyzeRelationship p.1 p.2 }

/-! ## Consensus & Strength Calculator -/

/-- `ArgumentMiner.calculateEvidenceQuality`: weighted mean, capped at 1. -/
def calculateEvidenceQuality (evidence : List Evidence) : ℚ :=
  if evidence.length = 0 then 0
  else
    let weightOf := fun t => match t with
      | EvidenceType.code => (9 : ℚ)/10
      | EvidenceType.metric => 17/20
      | EvidenceType.documentation => 7/10
      | EvidenceType.historical => 4/5
      | EvidenceType.external => 3/5
    let totalQuality := (evidence.map fun e => weightOf e.type * e.confidence).sum
    min 1 (totalQuality / evidence.length)

/-- JS truthiness of the optional `rebuttal` string field. -/
def optStrTruthy : Option String → Bool
  | some s => s ≠ ""
  | none => false

/--
`ArgumentMiner.calculateArgumentStrength`: structural components plus
graph-context modifiers, clamped to `[0,1]`.
-/
def calculateArgumentStrength (graph : ArgumentGraph)
    (argument : ToulminArgument) : ℚ :=
  let components : List ℚ :=
    [if argument.grounds.length > 0 then 2/10 else 0,
     min (argument.grounds.length * (1/10)) (3/10),
     if argument.warrant ≠ "" then 2/10 else 0,
     if argument.backing.length > 0 then 1/10 else 0,
     calculateEvidenceQuality argument.backing * (2/10)]
  let strength := components.sum
  let strength := if argument.qualifier ≠ "" then strength + 1/20 else strength
  let strength := if optStrTruthy argument.rebuttal then strength + 1/20 else strength
  let supportingEdges := graph.edges.filter fun e =>
    e.toId == argument.id && e.type == EdgeType.supports
  let attackingEdges := graph.edges.filter fun e =>
    e.toId == argument.id &&
      (e.type == EdgeType.rebuts || e.type == EdgeType.undermines)
  let strength := strength + supportingEdges.length * (1/20)
  let strength := strength - attackingEdges.length * (1/20)
  max 0 (min 1 strength)

/-- `ArgumentMiner.truncate`. -/
def truncate (text : String) (maxLength : Nat) : String :=
  if text.toList.length ≤ maxLength then text
  else String.mk (text.toList.take (maxLength - 3)) ++ "..."

/--
`ArgumentMiner.findConflictPoints`: one line per rebut/undermine edge
whose endpoints both resolve to nodes.
-/
def findConflictPoints (graph : ArgumentGraph) : List String :=
  graph.edges.filterMap fun edge =>
    if edge.type == EdgeType.rebuts || edge.type == EdgeType.undermines then
      match graph.nodes.find? (fun n => n.id == edge.fromId),
            graph.nodes.find? (fun n => n.id == edge.toId) with
      | some fromNode, some toNode =>
        some (fromNode.argument.agent ++ " vs " ++ toNode.argument.agent ++
          ": " ++ truncate fromNode.argument.claim 30)
      | _, _ => none
    else none

/--
`ArgumentMiner.calculateConsensusLevel`: `0` for an empty graph, `0.5`
when there are no support/conflict edges, else the support ratio.
-/
def calculateConsensusLevel (graph : ArgumentGraph) : ℚ :=
  if graph.nodes.length = 0 then 0
  else
    let supportCount := graph.edges.countP fun e => e.type == EdgeType.supports
    let conflictCount := graph.edges.countP fun e =>
      e.type == EdgeType.rebuts || e.type == EdgeType.undermines
    let totalEdges := supportCount + conflictCount
    if totalEdges = 0 then 1/2
    else (supportCount : ℚ) / (totalEdges : ℚ)

/-- Stable descending insertion (the JS stable sort by `b.key - a.key`). -/
def insertByDesc (key : α → ℚ) (x : α) : List α → List α
  | [] => [x]
  | y :: ys =>
    if key y ≤ key x then x :: y :: ys else y :: insertByDesc key x ys

/-- Stable descending sort by a rational key. -/
def sortByDesc (key : α → ℚ) : List α → List α
  | [] => []
  | x :: xs => insertByDesc key x (sortByDesc key xs)

/--
`ArgumentMiner.generateMetrics` over the accumulated argument list and
the current graph (the two stateful fields, passed explicitly).  For an
empty list the JS `averageStrength` is `0/0 = NaN`; the Lean rational
convention gives `0` there; no claim depends on that field.
-/
def generateMetrics (allArguments : List ToulminArgument)
    (graph : ArgumentGraph) : ArgumentMetrics :=
  let updated := allArguments.map fun arg =>
    { arg with strength := calculateArgumentStrength graph arg }
  let sortedByStrength := sortByDesc (fun a => a.strength) updated
  { totalArguments := updated.length
    averageStrength := (updated.map fun a => a.strength).sum / updated.length
    consensusLevel := calculateConsensusLevel graph
    conflictPoints := findConflictPoints graph
    strongestArguments := sortedByStrength.take 3
    weakestArguments :=
      (sortedByStrength.drop (sortedByStrength.length - 3)).reverse }

/-! ## Performance Impact Analyzer (evidence-extractor.ts) -/

/-- `Change.type` union. -/
inductive ChangeType where
  | added
  | modified
  | deleted
deriving DecidableEq, Repr

/-- `Change` interface. -/
structure Change where
  file : String
  type : ChangeType
  additions : Nat
  deletions : Nat
  patches : List String
deriving DecidableEq, Repr

/-- Impact level union `'high' | 'medium' | 'low' | 'none'`. -/
inductive ImpactLevel where
  | none
  | low
  | medium
  | high
deriving DecidableEq, Repr

/-- `PerformanceImpact` interface. -/
structure PerformanceImpact where
  cpuImpact : ImpactLevel
  memoryImpact : ImpactLevel
  ioImpact : ImpactLevel
  estimatedLatencyChange : ℚ
  scalabilityIssues : List String
  optimizationOpportunities : List String
deriving DecidableEq, Repr

/--
Anchored literal, then `\s*`, then `(`: the tail shape `X\s*\(` shared
by several anti-pattern alternatives.  Returns the remainder.
-/
def litWsParen (lit : List Char) (s : List Char) : Option (List Char) :=
  match takeLit lit s with
  | none => none
  | some r0 =>
    match r0.dropWhile jsIsSpace with
    | '(' :: r1 => some r1
    | _ => none

/--
Greedy `[^}]*` before a tail matcher: the match takes the longest
prefix of the non-`}` region after which the tail matches; returns the
remainder after the tail.  `tail` is tried at every suffix and the
latest success wins (JS greedy backtracking).
-/
def lastTailMatch (tail : List Char → Option (List Char)) :
    List Char → Option (List Char)
  | [] => none
  | c :: cs =>
    match lastTailMatch tail cs with
    | some r => some r
    | none => tail (c :: cs)

/-- Anchored `for\s*\([^)]*\)\s*{` — the loop-header shape. -/
def forHeadTok (s : List Char) : Option (List Char) :=
  match takeLit ['f', 'o', 'r'] s with
  | none => none
  | some r0 =>
    match r0.dropWhile jsIsSpace with
    | '(' :: r1 =>
      let r2 := r1.dropWhile (· ≠ ')')
      match r2 with
      | ')' :: r3 =>
        match r3.dropWhile jsIsSpace with
        | '{' :: r4 => some r4
        | _ => none
      | _ => none
    | _ => none

/-- Anchored `for\s*\([^)]*\)\s*{[^}]*for\s*\(` (nested-loop shape). -/
def nestedLoopTok (s : List Char) : Option (Unit × List Char) :=
  match forHeadTok s with
  | none => none
  | some r4 =>
    let body := r4.takeWhile (· ≠ '}')
    let afterBody := r4.dropWhile (· ≠ '}')
    match lastTailMatch (litWsParen ['f', 'o', 'r']) body with
    | some innerRest => some ((), innerRest ++ afterBody)
    | none => none

/-- Anchored `readFileSync|execSync|writeFileSync`. -/
def syncCallTok (s : List Char) : Option (Unit × List Char) :=
  match takeAnyLit
    ["readFileSync".toList, "execSync".toList, "writeFileSync".toList] s with
  | some r => some ((), r)
  | none => none

/-- Anchored `\.map\s*\([^)]*\)\s*\.filter\s*\([^)]*\)\s*\.map`. -/
def chainTok (s : List Char) : Option (Unit × List Char) :=
  match litWsParen ['.', 'm', 'a', 'p'] s with
  | none => none
  | some r1 =>
    match r1.dropWhile (· ≠ ')') with
    | ')' :: r2 =>
      match litWsParen ['.', 'f', 'i', 'l', 't', 'e', 'r'] (r2.dropWhile jsIsSpace) with
      | none => none
      | some r3 =>
        match r3.dropWhile (· ≠ ')') with
        | ')' :: r4 =>
          match takeLit ['.', 'm', 'a', 'p'] (r4.dropWhile jsIsSpace) with
          | some r5 => some ((), r5)
          | none => none
        | _ => none
    | _ => none

/-- The tail `await\s+\w+\.query` of the N+1 shape. -/
def awaitQueryTail (s : List Char) : Option (List Char) :=
  match takeLit "await".toList s with
  | none => none
  | some r0 =>
    let ws := r0.takeWhile jsIsSpace
    let r1 := r0.dropWhile jsIsSpace
    if ws.isEmpty then none
    else
      let w := r1.takeWhile isWordChar
      let r2 := r1.dropWhile isWordChar
      if w.isEmpty then none
      else
        match takeLit ['.', 'q', 'u', 'e', 'r', 'y'] r2 with
        | some r3 => some r3
        | none => none

/-- Anchored `for\s*\([^)]*\)\s*{[^}]*await\s+\w+\.query` (N+1 shape). -/
def nPlusOneTok (s : List Char) : Option (Unit × List Char) :=
  match forHeadTok s with
  | none => none
  | some r4 =>
    let body := r4.takeWhile (· ≠ '}')
    let afterBody := r4.dropWhile (· ≠ '}')
    match lastTailMatch awaitQueryTail body with
    | some innerRest => some ((), innerRest ++ afterBody)
    | none => none

/-- Per-file anti-pattern counts returned by `detectPerformanceAntiPatterns`. -/
structure AntiPatterns where
  nestedLoops : Nat
  synchronousIo : Nat
  largeArrayOperations : Nat
  nPlusOneQueries : Bool
deriving DecidableEq, Repr

/-- `EvidenceExtractor.detectPerformanceAntiPatterns`. -/
def detectPerformanceAntiPatterns (content : String) : AntiPatterns :=
  { nestedLoops := (scanAll nestedLoopTok content.toList).length
    synchronousIo := (scanAll syncCallTok content.toList).length
    largeArrayOperations := (scanAll chainTok content.toList).length
    nPlusOneQueries := !(scanAll nPlusOneTok content.toList).isEmpty }

/--
One iteration of the `analyzePerformanceImpact` loop, reading only the
file path and the change type (plus the file store); the remaining
`Change` fields are never consulted by the source.
-/
def perfStep (store : String → String) (st : PerformanceImpact)
    (file : String) (ty : ChangeType) : PerformanceImpact :=
  if ty = ChangeType.deleted then st
  else
    let content := store file
    let antiPatterns := detectPerformanceAntiPatterns content
    let st :=
      if antiPatterns.nestedLoops > 2 then
        { st with cpuImpact := ImpactLevel.high
                  scalabilityIssues := st.scalabilityIssues ++
                    ["Deeply nested loops in " ++ file]
                  estimatedLatencyChange :=
                    st.estimatedLatencyChange + 50 * antiPatterns.nestedLoops }
      else st
    let st :=
      if antiPatterns.synchronousIo > 0 then
        { st with ioImpact := ImpactLevel.high
                  optimizationOpportunities := st.optimizationOpportunities ++
                    ["Convert sync I/O to async in " ++ file]
                  estimatedLatencyChange :=
                    st.estimatedLatencyChange + 100 * antiPatterns.synchronousIo }
      else st
    let st :=
      if antiPatterns.largeArrayOperations > 0 then
        { st with memoryImpact := ImpactLevel.medium
                  optimizationOpportunities := st.optimizationOpportunities ++
                    ["Optimize array operations in " ++ file] }
      else st
    let st :=
      if antiPatterns.nPlusOneQueries then
        { st with ioImpact := ImpactLevel.high
                  scalabilityIssues := st.scalabilityIssues ++
                    ["N+1 query pattern detected in " ++ file]
                  estimatedLatencyChange := st.estimatedLatencyChange + 200 }
      else st
    st

/--
`EvidenceExtractor.analyzePerformanceImpact`: folds the per-change step
over the changeset, skipping deletions; `store` is the repository file
store (`getFileContent`, empty string on read failure).
-/
def analyzePerformanceImpact (store : String → String)
    (changes : List Change) : PerformanceImpact :=
  changes.foldl (fun st c => perfStep store st c.file c.type)
    { cpuImpact := ImpactLevel.none, memoryImpact := ImpactLevel.none,
      ioImpact := ImpactLevel.none, estimatedLatencyChange := 0,
      scalabilityIssues := [], optimizationOpportunities := [] }

/-! ## Code Metrics Analyzer (`calculateComplexity`) -/

/--
An IEEE-754-style extended number over the rationals: the values a
JavaScript `number` expression can take along the maintainability-index
computation (`Math.log(0) = -Infinity` propagates through it).
-/
inductive XNum where
  | nan
  | negInf
  | fin (q : ℚ)
  | posInf
deriving DecidableEq, Repr

/-- IEEE negation. -/
def xnumNeg : XNum → XNum
  | XNum.nan => XNum.nan
  | XNum.negInf => XNum.posInf
  | XNum.fin q => XNum.fin (-q)
  | XNum.posInf => XNum.negInf

/-- IEEE addition (`∞ + -∞ = NaN`). -/
def xnumAdd : XNum → XNum → XNum
  | XNum.nan, _ => XNum.nan
  | _, XNum.nan => XNum.nan
  | XNum.posInf, XNum.negInf => XNum.nan
  | XNum.negInf, XNum.posInf => XNum.nan
  | XNum.posInf, _ => XNum.posInf
  | _, XNum.posInf => XNum.posInf
  | XNum.negInf, _ => XNum.negInf
  | _, XNum.negInf => XNum.negInf
  | XNum.fin a, XNum.fin b => XNum.fin (a + b)

/-- IEEE subtraction. -/
def xnumSub (a b : XNum) : XNum :=
  xnumAdd a (xnumNeg b)

/-- IEEE multiplication by a rational constant (`0 × ∞ = NaN`). -/
def xnumMulConst (c : ℚ) : XNum → XNum
  | XNum.nan => XNum.nan
  | XNum.fin q => XNum.fin (c * q)
  | XNum.posInf =>
    if 0 < c then XNum.posInf else if c < 0 then XNum.negInf else XNum.nan
  | XNum.negInf =>
    if 0 < c then XNum.negInf else if c < 0 then XNum.posInf else XNum.nan

/-- JS `Math.max(0, x)` (NaN propagates). -/
def xnumMaxZero : XNum → XNum
  | XNum.nan => XNum.nan
  | XNum.negInf => XNum.fin 0
  | XNum.fin q => XNum.fin (max 0 q)
  | XNum.posInf => XNum.posInf

/-- Anchored `function\s+\w+` (first function-pattern alternative). -/
def funcKwTok (s : List Char) : Option (Unit × List Char) :=
  match takeLit "function".toList s with
  | none => none
  | some r0 =>
    let ws := r0.takeWhile jsIsSpace
    let r1 := r0.dropWhile jsIsSpace
    if ws.isEmpty then none
    else
      let w := r1.takeWhile isWordChar
      let r2 := r1.dropWhile isWordChar
      if w.isEmpty then none else some ((), r2)

/-- Anchored `=>\s*{` (second function-pattern alternative). -/
def arrowTok (s : List Char) : Option (Unit × List Char) :=
  match takeLit ['=', '>'] s with
  | none => none
  | some r0 =>
    match r0.dropWhile jsIsSpace with
    | '{' :: r1 => some ((), r1)
    | _ => none

/-- Anchored `\w+\s*:\s*function` (third function-pattern alternative). -/
def methodTok (s : List Char) : Option (Unit × List Char) :=
  let w := s.takeWhile isWordChar
  let r0 := s.dropWhile isWordChar
  if w.isEmpty then none
  else
    match r0.dropWhile jsIsSpace with
    | ':' :: r1 =>
      match takeLit "function".toList (r1.dropWhile jsIsSpace) with
      | some r2 => some ((), r2)
      | none => none
    | _ => none

/-- Anchored `function\s+\w+|=>\s*{|\w+\s*:\s*function`. -/
def functionTok (s : List Char) : Option (Unit × List Char) :=
  match funcKwTok s with
  | some r => some r
  | none =>
    match arrowTok s with
    | some r => some r
    | none => methodTok s

/-- Anchored `\?\s*:` (the ternary conditional cue). -/
def ternaryTok (s : List Char) : Option (Unit × List Char) :=
  match s with
  | '?' :: r0 =>
    match r0.dropWhile jsIsSpace with
    | ':' :: r1 => some ((), r1)
    | _ => none
  | _ => none

/-- Anchored `if\s*\(|else\s+if|\?\s*:`. -/
def conditionTok (s : List Char) : Option (Unit × List Char) :=
  match litWsParen ['i', 'f'] s with
  | some r => some ((), r)
  | none =>
    match takeLit "else".toList s with
    | some r0 =>
      let ws := r0.takeWhile jsIsSpace
      let r1 := r0.dropWhile jsIsSpace
      if ws.isEmpty then none
      else
        match takeLit ['i', 'f'] r1 with
        | some r2 => some ((), r2)
        | none => ternaryTok s
    | none => ternaryTok s

/-- Anchored `for\s*\(|while\s*\(|do\s*{`. -/
def loopTok (s : List Char) : Option (Unit × List Char) :=
  match litWsParen ['f', 'o', 'r'] s with
  | some r => some ((), r)
  | none =>
    match litWsParen "while".toList s with
    | some r => some ((), r)
    | none =>
      match takeLit ['d', 'o'] s with
      | some r0 =>
        match r0.dropWhile jsIsSpace with
        | '{' :: r1 => some ((), r1)
        | _ => none
      | none => none

/-- Anchored `switch\s*\(|case\s+`. -/
def switchTok (s : List Char) : Option (Unit × List Char) :=
  match litWsParen "switch".toList s with
  | some r => some ((), r)
  | none =>
    match takeLit "case".toList s with
    | some r0 =>
      let ws := r0.takeWhile jsIsSpace
      let r1 := r0.dropWhile jsIsSpace
      if ws.isEmpty then none else some ((), r1)
    | none => none

/-- Per-file result of `analyzeCodeComplexity`. -/
structure FileComplexity where
  cyclomatic : Nat
  cognitive : Nat
  functions : Nat
deriving DecidableEq, Repr

/-- `EvidenceExtractor.analyzeCodeComplexity`: control-flow cue counts. -/
def analyzeCodeComplexity (content : String) : FileComplexity :=
  let functions := (scanAll functionTok content.toList).length
  let conditions := (scanAll conditionTok content.toList).length
  let loops := (scanAll loopTok content.toList).length
  let switches := (scanAll switchTok content.toList).length
  { cyclomatic := conditions + loops + switches + 1
    cognitive := conditions + loops * 2 + switches * 3
    functions := functions }

/-- `ComplexityMetrics` interface. -/
structure ComplexityMetrics where
  cyclomatic : ℚ
  cognitive : Nat
  halsteadDifficulty : ℚ
  halsteadVolume : Nat
  halsteadEffort : ℚ
  maintainabilityIndex : XNum
deriving DecidableEq, Repr

/--
`EvidenceExtractor.calculateComplexity`: totals over the files, mean
cyclomatic complexity per function (`0` when no functions are found),
and `maintainabilityIndex = Math.max(0, 171 - 5.2 * Math.log(avg)
- 0.23 * cognitive)` with no clamp of the log argument.  `log` models
`Math.log` (any function with `log 0 = -Infinity` and finite positive
values on positive arguments); `store` is the repository file store.
-/
def calculateComplexity (log : ℚ → XNum) (store : String → String)
    (files : List String) : ComplexityMetrics :=
  let totals := files.foldl
    (fun (t : Nat × Nat × Nat) f =>
      let analysis := analyzeCodeComplexity (store f)
      (t.1 + analysis.cyclomatic, t.2.1 + analysis.cognitive,
       t.2.2 + analysis.functions))
    (0, 0, 0)
  let totalCyclomatic := totals.1
  let totalCognitive := totals.2.1
  let totalFunctions := totals.2.2
  let avgCyclomatic : ℚ :=
    if totalFunctions > 0 then (totalCyclomatic : ℚ) / (totalFunctions : ℚ) else 0
  let maintainabilityIndex :=
    xnumMaxZero (xnumSub
      (xnumSub (XNum.fin 171) (xnumMulConst (26/5) (log avgCyclomatic)))
      (XNum.fin ((23/100) * totalCognitive)))
  { cyclomatic := avgCyclomatic
    cognitive := totalCognitive
    halsteadDifficulty := avgCyclomatic * 2
    halsteadVolume := totalFunctions * 10
    halsteadEffort := avgCyclomatic * totalFunctions * 10
    maintainabilityIndex := maintainabilityIndex }

/-! ## Historical Matcher (`findSimilarChanges`) -/

/-- Commit outcome union. -/
inductive Outcome where
  | merged
  | rejected
  | reverted
deriving DecidableEq, Repr

/-- `HistoricalMatch` interface. -/
structure HistoricalMatch where
  commit : String
  date : String
  author : String
  similarity : ℚ
  outcome : Outcome
  issues : List String
  performanceImpact : Option ℚ
deriving DecidableEq, Repr

/-- One parsed `git log --format="%H|%ai|%an|%s"` line. -/
structure CommitMeta where
  hash : String
  date : String
  author : String
  subject : String
deriving DecidableEq, Repr

/--
The version-control interface consumed by `findSimilarChanges`:
the recent-commit listing, per-commit diffs (`git show`), and the
outcome / related-issue / historical-performance queries
(`getCommitOutcome`, `getRelatedIssues`,
`getHistoricalPerformanceImpact`), which are external git and
monitoring reads.
-/
structure GitEnv where
  commits : List CommitMeta
  diffOf : String → String
  outcomeOf : String → Outcome
  issuesOf : String → List String
  perfOf : String → Option ℚ

/-- The `HistoricalMatch` record pushed for a retained commit. -/
def mkMatch (env : GitEnv) (diff : String) (c : CommitMeta) : HistoricalMatch :=
  { commit := c.hash, date := c.date, author := c.author,
    similarity := calculateDiffSimilarity diff (env.diffOf c.hash),
    outcome := env.outcomeOf c.hash, issues := env.issuesOf c.hash,
    performanceImpact := env.perfOf c.hash }

/--
The commit loop of `findSimilarChanges`: a commit is pushed onto
`matches` exactly when its similarity exceeds the 0.3 threshold
(`if (similarity > 0.3)`).
-/
def collectMatches (env : GitEnv) (diff : String) : List HistoricalMatch :=
  env.commits.filterMap fun c =>
    if 3/10 < calculateDiffSimilarity diff (env.diffOf c.hash) then
      some (mkMatch env diff c)
    else none

/--
`EvidenceExtractor.findSimilarChanges`: retained matches sorted by
similarity descending, truncated to the top 10.
-/
def findSimilarChanges (env : GitEnv) (diff : String) : List HistoricalMatch :=
  (sortByDesc (fun m => m.similarity) (collectMatches env diff)).take 10

/-! ## Risk Aggregator (`ContextBuilder.calculateRiskAssessment`) -/

/-- `SecurityScan` interface (severity counts from the scan summary). -/
structure SecurityScan where
  vulnerabilities : Nat
  critical : Nat
  high : Nat
  medium : Nat
  low : Nat
deriving DecidableEq, Repr

/--
The fields of the optional `codeMetrics` input actually read by the
risk calculation: `complexity.cyclomatic` and `quality.codeSmells`.
-/
structure RiskMetricsView where
  complexityCyclomatic : ℚ
  qualityCodeSmells : Nat
deriving DecidableEq, Repr

/-- A changed file as consumed by the risk calculation (its `filename`). -/
structure RiskFile where
  filename : String
deriving DecidableEq, Repr

/-- `RiskAssessment.overall` union. -/
inductive RiskLevel where
  | low
  | medium
  | high
  | critical
deriving DecidableEq, Repr

/-- `RiskAssessment` interface. -/
structure RiskAssessment where
  overall : RiskLevel
  security : ℚ
  performance : ℚ
  architectural : ℚ
  compatibility : ℚ
  summary : String
deriving DecidableEq, Repr

/-- The `impactMap` table `{ high: 3, medium: 2, low: 1, none: 0 }`. -/
def impactMap : ImpactLevel → ℚ
  | ImpactLevel.high => 3
  | ImpactLevel.medium => 2
  | ImpactLevel.low => 1
  | ImpactLevel.none => 0

/-- Rendering of a `RiskLevel` into the summary template. -/
def riskLevelStr : RiskLevel → String
  | RiskLevel.low => "low"
  | RiskLevel.medium => "medium"
  | RiskLevel.high => "high"
  | RiskLevel.critical => "critical"

/--
`ContextBuilder.calculateRiskAssessment`: four dimension scores and an
overall level from their unweighted mean; scores default to 5 when the
corresponding input is absent.  The performance dimension is the only
one without a `Math.min(10, …)` cap.
-/
def calculateRiskAssessment (securityScan : Option SecurityScan)
    (codeMetrics : Option RiskMetricsView)
    (performanceImpact : Option PerformanceImpact)
    (changedFiles : List RiskFile) : RiskAssessment :=
  let securityScore : ℚ := match securityScan with
    | none => 5
    | some s => min 10
        (s.critical * 4 + s.high * 2 + s.medium * 1 + s.low * (1/2))
  let performanceScore : ℚ := match performanceImpact with
    | none => 5
    | some p =>
        impactMap p.cpuImpact + impactMap p.memoryImpact +
        impactMap p.ioImpact + p.scalabilityIssues.length * (1/2)
  let architecturalScore : ℚ := match codeMetrics with
    | none => 5
    | some m => min 10
        (m.complexityCyclomatic / 10 + m.qualityCodeSmells * (1/2))
  let apiChanges := (changedFiles.filter fun f =>
    jsIncludes f.filename "api" || jsIncludes f.filename "interface").length
  let compatibilityScore : ℚ := min 10 (apiChanges * 2)
  let avgScore := (securityScore + performanceScore + architecturalScore +
    compatibilityScore) / 4
  let overall :=
    if 8 ≤ avgScore then RiskLevel.critical
    else if 6 ≤ avgScore then RiskLevel.high
    else if 4 ≤ avgScore then RiskLevel.medium
    else RiskLevel.low
  let concerns :=
    (if 7 ≤ securityScore then "security " else "") ++
    (if 7 ≤ performanceScore then "performance " else "") ++
    (if 7 ≤ architecturalScore then "architecture " else "") ++
    (if 7 ≤ compatibilityScore then "compatibility" else "")
  let summaryBody :=
    jsTrim ("Overall risk: " ++ riskLevelStr overall ++ ". Key concerns: " ++
      concerns)
  { overall := overall
    security := securityScore
    performance := performanceScore
    architectural := architecturalScore
    compatibility := compatibilityScore
    summary := if summaryBody = "" then "None identified" else summaryBody }

/-! ## Concrete inputs used by witnesses and counterexamples -/

/-- A minimal argument record with the given identity and claim. -/
def plainArg (id agent claim : String) : ToulminArgument :=
  { id := id, agent := agent, timestamp := 0, claim := claim, grounds := [],
    warrant := "", backing := [], qualifier := "", rebuttal := none,
    strength := 0 }

def approveArgA : ToulminArgument :=
  plainArg "argA1" "security" "We should approve this change"

def rejectArgA : ToulminArgument :=
  plainArg "argA2" "performance" "We should reject this change"

def approveArgB : ToulminArgument :=
  plainArg "argB1" "quality" "We should approve this refactor"

def rejectArgB : ToulminArgument :=
  plainArg "argB2" "architecture" "We should reject this refactor"

/-- The edge the builder produces for the pair `approveArgB, rejectArgB`. -/
def underminesEdgeB : ArgumentEdge :=
  { fromId := "argB1", toId := "argB2", type := EdgeType.undermines,
    strength := 7/10 }

def soloArg : ToulminArgument :=
  plainArg "solo1" "quality" "The test suite still needs attention"

/-- Git environment whose single commit scores exactly 0.3. -/
def thresholdEnv : GitEnv :=
  { commits := [{ hash := "c0", date := "2024-01-01", author := "alice",
                  subject := "tune cache" }]
    diffOf := fun _ => "a b c x y z"
    outcomeOf := fun _ => Outcome.merged
    issuesOf := fun _ => []
    perfOf := fun _ => none }

/-- Git environment whose single commit scores 1 (identical diff). -/
def retainEnv : GitEnv :=
  { commits := [{ hash := "c1", date := "2024-02-02", author := "bob",
                  subject := "same change" }]
    diffOf := fun _ => "alpha beta gamma"
    outcomeOf := fun _ => Outcome.merged
    issuesOf := fun _ => ["42"]
    perfOf := fun _ => none }

def retainCommit : CommitMeta :=
  { hash := "c1", date := "2024-02-02", author := "bob",
    subject := "same change" }

/-- Security scan producing a security score of exactly 9. -/
def riskScanC5 : SecurityScan :=
  { vulnerabilities := 3, critical := 2, high := 0, medium := 1, low := 0 }

/-- Metrics view producing an architectural score of exactly 2. -/
def riskMetricsC5 : RiskMetricsView :=
  { complexityCyclomatic := 20, qualityCodeSmells := 0 }

/-- Performance impact producing a performance score of exactly 2. -/
def riskImpactC5 : PerformanceImpact :=
  { cpuImpact := ImpactLevel.none, memoryImpact := ImpactLevel.medium,
    ioImpact := ImpactLevel.none, estimatedLatencyChange := 0,
    scalabilityIssues := [], optimizationOpportunities := [] }

/-- One API-path file, producing a compatibility score of exactly 2. -/
def riskFilesC5 : List RiskFile :=
  [{ filename := "api/routes.ts" }]

/--
A performance impact with high cpu and io, medium memory, and five
scalability issues: its mapped performance score is 10.5.
-/
def overflowImpact : PerformanceImpact :=
  { cpuImpact := ImpactLevel.high, memoryImpact := ImpactLevel.medium,
    ioImpact := ImpactLevel.high, estimatedLatencyChange := 0,
    scalabilityIssues := ["s1", "s2", "s3", "s4", "s5"],
    optimizationOpportunities := [] }

def perfStoreW : String → String :=
  fun f => if f = "src/hot.ts" then "readFileSync(x)" else ""

/-- Two changesets equal in paths and types, differing elsewhere. -/
def perfChangesA : List Change :=
  [{ file := "src/hot.ts", type := ChangeType.modified, additions := 3,
     deletions := 1, patches := ["p1"] },
   { file := "gone.ts", type := ChangeType.deleted, additions := 0,
     deletions := 9, patches := [] }]

def perfChangesB : List Change :=
  [{ file := "src/hot.ts", type := ChangeType.modified, additions := 70,
     deletions := 44, patches := [] },
   { file := "gone.ts", type := ChangeType.deleted, additions := 5,
     deletions := 0, patches := ["q1", "q2"] }]

/-- The single-segment Argument Parser scenario input. -/
def cachingScenario : String :=
  "Claim: Use caching. Grounds: profiling shows 80% cpu time here."

/-! # Theorems -/

/-! ## Shared helper lemmas -/

theorem splitGoFuel_ne_nil (f : List Char → Option (Unit × List Char)) :
    ∀ (fuel : Nat) (acc l : List Char), splitGoFuel f fuel acc l ≠ [] := by
  intro fuel
  induction fuel with
  | zero =>
    intro acc l
    cases l <;> simp [splitGoFuel]
  | succ fuel ih =>
    intro acc l
    cases l with
    | nil => simp [splitGoFuel]
    | cons c cs =>
      rw [splitGoFuel]
      cases hf : f (c :: cs) with
      | none => simpa using ih (c :: acc) cs
      | some pr =>
        obtain ⟨u, rest⟩ := pr
        by_cases hlt : rest.length < cs.length + 1
        · simp [hlt]
        · simpa [hlt] using ih (c :: acc) cs

theorem wsSplitLower_ne_nil (s : String) : wsSplitLower s ≠ [] := by
  unfold wsSplitLower jsSplit
  intro h
  simp only [List.map_eq_nil_iff] at h
  exact splitGoFuel_ne_nil wsRunTok _ [] _ h

theorem claimTokenSet_card_pos (s : String) : 0 < (claimTokenSet s).card := by
  rcases hsp : wsSplitLower s with _ | ⟨x, xs⟩
  · exact absurd hsp (wsSplitLower_ne_nil s)
  · exact Finset.card_pos.mpr ⟨x, by simp [claimTokenSet, hsp]⟩

/--
C1 (amended).  Both token-set Jaccard similarities are symmetric for
all texts.  `calculateSimilarity` (Argument Graph Builder) satisfies
`similarity(A, A) = 1` for every text, because `split(/\s+/)` always
yields at least one token.  `calculateDiffSimilarity` (Historical
Matcher) satisfies `similarity(A, A) = 1` exactly for texts with at
least one `\w+` word token; on texts with none (such as the empty
string) it returns `0`, not `1`.
-/
theorem similarity_symm_and_self :
    (∀ a b, calculateDiffSimilarity a b = calculateDiffSimilarity b a) ∧
    (∀ a b, calculateSimilarity a b = calculateSimilarity b a) ∧
    (∀ a, calculateSimilarity a a = 1) ∧
    (∀ a, wordTokens a ≠ [] → calculateDiffSimilarity a a = 1) ∧
    (∀ a, wordTokens a = [] → calculateDiffSimilarity a a = 0) := by
  refine ⟨?_, ?_, ?_, ?_, ?_⟩
  · intro a b
    simp only [calculateDiffSimilarity]
    rw [Finset.inter_comm, Finset.union_comm]
  · intro a b
    simp only [calculateSimilarity]
    rw [Finset.inter_comm, Finset.union_comm]
  · intro a
    simp only [calculateSimilarity]
    rw [Finset.inter_self, Finset.union_self]
    rw [if_pos (claimTokenSet_card_pos a)]
    exact div_self (by exact_mod_cast (claimTokenSet_card_pos a).ne')
  · intro a ha
    have hpos : 0 < (diffTokenSet a).card := by
      rcases hw : wordTokens a with _ | ⟨x, xs⟩
      · exact absurd hw ha
      · exact Finset.card_pos.mpr ⟨x, by simp [diffTokenSet, hw]⟩
    simp only [calculateDiffSimilarity]
    rw [Finset.inter_self, Finset.union_self, if_pos hpos]
    exact div_self (by exact_mod_cast hpos.ne')
  · intro a ha
    simp [calculateDiffSimilarity, diffTokenSet, ha]

/--
Witness for C1: a text with a word token has diff self-similarity 1.
-/
theorem similarity_symm_and_self_witness :
    wordTokens "cache layer" ≠ [] ∧
    calculateDiffSimilarity "cache layer" "cache layer" = 1 :=
  ⟨by decide, similarity_symm_and_self.2.2.2.1 "cache layer" (by decide)⟩

/--
Counterexample to C1 as stated: on the empty text (no word tokens) the
Historical Matcher similarity of a text with itself is `0`, not `1.0`.
-/
theorem diffSimilarity_empty_self_zero :
    calculateDiffSimilarity "" "" = 0 ∧ calculateDiffSimilarity "" "" ≠ 1 := by
  constructor
  · decide
  · decide

theorem consensusLevel_mem_unit (g : ArgumentGraph) :
    0 ≤ calculateConsensusLevel g ∧ calculateConsensusLevel g ≤ 1 := by
  simp only [calculateConsensusLevel]
  by_cases hn : g.nodes.length = 0
  · rw [if_pos hn]
    norm_num
  · rw [if_neg hn]
    by_cases ht : (g.edges.countP fun e => e.type == EdgeType.supports) +
        (g.edges.countP fun e =>
          e.type == EdgeType.rebuts || e.type == EdgeType.undermines) = 0
    · rw [if_pos ht]
      norm_num
    · rw [if_neg ht]
      have hpos : (0 : ℚ) <
          (((g.edges.countP fun e => e.type == EdgeType.supports) +
            (g.edges.countP fun e =>
              e.type == EdgeType.rebuts || e.type == EdgeType.undermines) :
            Nat) : ℚ) := by
        exact_mod_cast Nat.pos_of_ne_zero ht
      refine ⟨by positivity, ?_⟩
      rw [div_le_one hpos]
      exact_mod_cast Nat.le_add_right _ _

/--
C2 (amended).  For every argument set and the graph built from it, the
consensus level returned by `generateMetrics` lies in `[0,1]`, and it
equals exactly `0.5` whenever the argument set is nonempty and the
graph contains zero supports/rebuts/undermines edges.  For the empty
argument set (empty graph) it is `0`, not `0.5`: the
`nodes.length === 0` guard of `calculateConsensusLevel` returns `0`
before the neutral default is reached.
-/
theorem consensusLevel_bounds_and_neutral (args : List ToulminArgument) :
    (0 ≤ (generateMetrics args (buildArgumentGraph args)).consensusLevel ∧
      (generateMetrics args (buildArgumentGraph args)).consensusLevel ≤ 1) ∧
    (args ≠ [] →
      (buildArgumentGraph args).edges.countP
        (fun e => e.type == EdgeType.supports) = 0 →
      (buildArgumentGraph args).edges.countP
        (fun e => e.type == EdgeType.rebuts || e.type == EdgeType.undermines)
        = 0 →
      (generateMetrics args (buildArgumentGraph args)).consensusLevel = 1/2) ∧
    (args = [] →
      (generateMetrics args (buildArgumentGraph args)).consensusLevel = 0) := by
  have hcl : (generateMetrics args (buildArgumentGraph args)).consensusLevel =
      calculateConsensusLevel (buildArgumentGraph args) := rfl
  refine ⟨?_, ?_, ?_⟩
  · rw [hcl]
    exact consensusLevel_mem_unit (buildArgumentGraph args)
  · intro hne hs hc
    rw [hcl]
    simp only [calculateConsensusLevel]
    have hn : (buildArgumentGraph args).nodes.length ≠ 0 := by
      simpa [buildArgumentGraph] using hne
    rw [if_neg hn, hs, hc]
    norm_num
  · intro he
    subst he
    rw [hcl]
    rfl

/--
Witness for C2: a one-argument set has a nonempty graph with no edges,
and its consensus level is exactly 0.5.
-/
theorem consensusLevel_bounds_and_neutral_witness :
    [soloArg] ≠ ([] : List ToulminArgument) ∧
    (generateMetrics [soloArg] (buildArgumentGraph [soloArg])).consensusLevel
      = 1/2 :=
  ⟨by decide, (consensusLevel_bounds_and_neutral [soloArg]).2.1 (by decide)
    (by decide) (by decide)⟩

/--
Counterexample to C2 as stated: for the empty argument set the graph
has no supports/rebuts/undermines edges, yet the consensus level is
`0`, not `0.5`.
-/
theorem consensusLevel_empty_graph_zero :
    (buildArgumentGraph ([] : List ToulminArgument)).edges = [] ∧
    (generateMetrics [] (buildArgumentGraph [])).consensusLevel = 0 ∧
    (generateMetrics [] (buildArgumentGraph [])).consensusLevel ≠ 1/2 := by
  refine ⟨rfl, rfl, ?_⟩
  with_unfolding_all decide

/--
C3 (the claimed clamp does not exist in the code).  When the file list
yields no functions, `avgCyclomatic` is `0` and the source computes
`Math.max(0, 171 - 5.2 * Math.log(0) - 0.23 * cognitive)`, which is
`+Infinity`, not a finite non-negative number: there is no clamp of
`avgCyclomatic` to at least 1 before the logarithm.  Stated for every
model `log` of `Math.log` (any function with `log 0 = -Infinity`) and
every file store, at the empty file list.
-/
theorem maintainabilityIndex_no_functions_infinite
    (log : ℚ → XNum) (store : String → String)
    (h : log 0 = XNum.negInf) :
    (calculateComplexity log store []).maintainabilityIndex = XNum.posInf := by
  simp only [calculateComplexity, List.foldl_nil]
  norm_num
  rw [h]
  with_unfolding_all decide

/--
Witness for C3: the concrete `log` sending everything to `-Infinity`
satisfies the hypothesis, and the maintainability index at the empty
file list is `+Infinity`.
-/
theorem maintainabilityIndex_no_functions_infinite_witness :
    (fun _ : ℚ => XNum.negInf) 0 = XNum.negInf ∧
    (calculateComplexity (fun _ => XNum.negInf) (fun _ => "")
        []).maintainabilityIndex = XNum.posInf :=
  ⟨rfl, maintainabilityIndex_no_functions_infinite
    (fun _ => XNum.negInf) (fun _ => "") rfl⟩

theorem impactMap_nonneg (l : ImpactLevel) : 0 ≤ impactMap l := by
  cases l <;> norm_num [impactMap]

theorem impactMap_le_three (l : ImpactLevel) : impactMap l ≤ 3 := by
  cases l <;> norm_num [impactMap]

/--
C4 (amended).  In `calculateRiskAssessment`, the security,
architectural (given the producer invariant that the mean cyclomatic
complexity is non-negative) and compatibility scores always lie in
`[0,10]`, and so does the performance score when no performance input
is present (default 5).  The performance score, however, carries no
`Math.min(10, …)` cap: it is only non-negative and bounded by
`9 + scalabilityIssueCount/2`, and it exceeds 10 for impacts whose
mapped levels plus half the issue count exceed 10.
-/
theorem riskAssessment_dimension_bounds
    (scan : Option SecurityScan) (metrics : Option RiskMetricsView)
    (impact : Option PerformanceImpact) (files : List RiskFile)
    (hcyc : ∀ m, metrics = some m → 0 ≤ m.complexityCyclomatic) :
    (0 ≤ (calculateRiskAssessment scan metrics impact files).security ∧
      (calculateRiskAssessment scan metrics impact files).security ≤ 10) ∧
    (0 ≤ (calculateRiskAssessment scan metrics impact files).architectural ∧
      (calculateRiskAssessment scan metrics impact files).architectural ≤ 10) ∧
    (0 ≤ (calculateRiskAssessment scan metrics impact files).compatibility ∧
      (calculateRiskAssessment scan metrics impact files).compatibility ≤ 10) ∧
    (0 ≤ (calculateRiskAssessment scan metrics impact files).performance) ∧
    (impact = none →
      (calculateRiskAssessment scan metrics impact files).performance = 5) ∧
    (∀ p, impact = some p →
      (calculateRiskAssessment scan metrics impact files).performance ≤
        9 + p.scalabilityIssues.length * (1/2)) := by
  refine ⟨?_, ?_, ?_, ?_, ?_, ?_⟩
  · cases scan with
    | none => norm_num [calculateRiskAssessment]
    | some s =>
      simp only [calculateRiskAssessment]
      constructor
      · apply le_min (by norm_num)
        positivity
      · exact min_le_left _ _
  · cases metrics with
    | none => norm_num [calculateRiskAssessment]
    | some m =>
      simp only [calculateRiskAssessment]
      constructor
      · apply le_min (by norm_num)
        have := hcyc m rfl
        positivity
      · exact min_le_left _ _
  · simp only [calculateRiskAssessment]
    constructor
    · apply le_min (by norm_num)
      positivity
    · exact min_le_left _ _
  · cases impact with
    | none => norm_num [calculateRiskAssessment]
    | some p =>
      simp only [calculateRiskAssessment]
      have h1 := impactMap_nonneg p.cpuImpact
      have h2 := impactMap_nonneg p.memoryImpact
      have h3 := impactMap_nonneg p.ioImpact
      positivity
  · intro hi
    subst hi
    norm_num [calculateRiskAssessment]
  · intro p hi
    subst hi
    simp only [calculateRiskAssessment]
    have h1 := impactMap_le_three p.cpuImpact
    have h2 := impactMap_le_three p.memoryImpact
    have h3 := impactMap_le_three p.ioImpact
    linarith

/--
Witness for C4: the amended bounds at the concrete scenario inputs
(the hypothesis on the metrics cyclomatic mean holds since it is 20).
-/
theorem riskAssessment_dimension_bounds_witness :
    (0 ≤ (calculateRiskAssessment (some riskScanC5) (some riskMetricsC5)
        (some riskImpactC5) riskFilesC5).security ∧
      (calculateRiskAssessment (some riskScanC5) (some riskMetricsC5)
        (some riskImpactC5) riskFilesC5).security ≤ 10) ∧
    (0 ≤ (calculateRiskAssessment (some riskScanC5) (some riskMetricsC5)
        (some riskImpactC5) riskFilesC5).architectural ∧
      (calculateRiskAssessment (some riskScanC5) (some riskMetricsC5)
        (some riskImpactC5) riskFilesC5).architectural ≤ 10) ∧
    (0 ≤ (calculateRiskAssessment (some riskScanC5) (some riskMetricsC5)
        (some riskImpactC5) riskFilesC5).compatibility ∧
      (calculateRiskAssessment (some riskScanC5) (some riskMetricsC5)
        (some riskImpactC5) riskFilesC5).compatibility ≤ 10) ∧
    (0 ≤ (calculateRiskAssessment (some riskScanC5) (some riskMetricsC5)
        (some riskImpactC5) riskFilesC5).performance) ∧
    (some riskImpactC5 = none →
      (calculateRiskAssessment (some riskScanC5) (some riskMetricsC5)
        (some riskImpactC5) riskFilesC5).performance = 5) ∧
    (∀ p, some riskImpactC5 = some p →
      (calculateRiskAssessment (some riskScanC5) (some riskMetricsC5)
        (some riskImpactC5) riskFilesC5).performance ≤
        9 + p.scalabilityIssues.length * (1/2)) :=
  riskAssessment_dimension_bounds (some riskScanC5) (some riskMetricsC5)
    (some riskImpactC5) riskFilesC5
    (by intro m hm; injection hm with h; rw [← h]; norm_num [riskMetricsC5])

/--
Counterexample to C4 as stated: a performance impact with high cpu and
io, medium memory and five scalability issues drives the performance
dimension to 10.5, outside `[0,10]`.
-/
theorem riskAssessment_performance_unbounded :
    (calculateRiskAssessment none none (some overflowImpact) []).performance
      = 21/2 ∧
    ¬ ((calculateRiskAssessment none none (some overflowImpact)
      []).performance ≤ 10) := by
  constructor
  · with_unfolding_all decide
  · with_unfolding_all decide

/--
C5 (amended).  With security=9, performance=2, architectural=2,
compatibility=2 the unweighted mean is 3.75, which is below the
medium threshold 4, so `calculateRiskAssessment` yields overall level
`"low"`, not `"medium"`; the thresholds themselves (≥8 critical,
≥6 high, ≥4 medium, else low) are as the claim states them.
-/
theorem riskAssessment_scenario_9222_low :
    (calculateRiskAssessment (some riskScanC5) (some riskMetricsC5)
        (some riskImpactC5) riskFilesC5).security = 9 ∧
    (calculateRiskAssessment (some riskScanC5) (some riskMetricsC5)
        (some riskImpactC5) riskFilesC5).performance = 2 ∧
    (calculateRiskAssessment (some riskScanC5) (some riskMetricsC5)
        (some riskImpactC5) riskFilesC5).architectural = 2 ∧
    (calculateRiskAssessment (some riskScanC5) (some riskMetricsC5)
        (some riskImpactC5) riskFilesC5).compatibility = 2 ∧
    (calculateRiskAssessment (some riskScanC5) (some riskMetricsC5)
        (some riskImpactC5) riskFilesC5).overall = RiskLevel.low := by
  refine ⟨?_, ?_, ?_, ?_, ?_⟩ <;> with_unfolding_all decide

/--
Counterexample to C5 as stated: at the security=9, performance=2,
architectural=2, compatibility=2 scenario the overall level is not
`"medium"` (the mean 3.75 falls below the ≥4 medium threshold).
-/
theorem riskAssessment_scenario_9222_not_medium :
    (calculateRiskAssessment (some riskScanC5) (some riskMetricsC5)
        (some riskImpactC5) riskFilesC5).overall ≠ RiskLevel.medium := by
  with_unfolding_all decide

/--
C6 (amended).  On the single-segment input
`"Claim: Use caching. Grounds: profiling shows 80% cpu time here."`
the Argument Parser yields exactly one Argument with exactly one
grounds entry (`"profiling shows 80% cpu time here."`), but its claim
field is the entire remainder of the line after the `claim` anchor —
`"Use caching. Grounds: profiling shows 80% cpu time here."` — because
the `[^\n]+` capture of the claim pattern runs to the end of the line,
not `"Use caching."`.  This holds for every persona name, id supply
and timestamp.
-/
theorem parseAgentOutput_caching_scenario
    (ids : Nat → String) (now : Nat) (agent : String) :
    (parseAgentOutput ids now agent cachingScenario).map
      (fun a => (a.claim, a.grounds)) =
    [("Use caching. Grounds: profiling shows 80% cpu time here.",
      ["profiling shows 80% cpu time here."])] := by
  rfl

/--
Counterexample to C6 as stated: the claim field of the parsed argument
is not `"Use caching."`.
-/
theorem parseAgentOutput_caching_claim_not_short :
    (parseAgentOutput (fun _ => "uuid0") 0 "performance"
        cachingScenario).map (fun a => a.claim) ≠ ["Use caching."] := by
  decide

/--
C7 (confirmed).  For two arguments whose claims are
`"We should approve this change"` and `"We should reject this change"`,
with the earlier argument's persona not mentioned in the later claim
and no rebuttal text on the later argument, `buildArgumentGraph`
produces exactly one edge: `undermines` with strength 0.7, directed
from the earlier argument to the later one.  (The rebuts check fails
by hypothesis, the claim similarity 2/3 does not exceed 0.7, and the
approve/reject antonym pair fires.)
-/
theorem approve_reject_undermines_edge (a1 a2 : ToulminArgument)
    (h1 : a1.claim = "We should approve this change")
    (h2 : a2.claim = "We should reject this change")
    (h3 : jsIncludes a2.claim a1.agent = false)
    (h4 : a2.rebuttal = none) :
    (buildArgumentGraph [a1, a2]).edges =
      [{ fromId := a1.id, toId := a2.id, type := EdgeType.undermines,
         strength := 7/10 }] := by
  have hsim : ¬ ((7:ℚ)/10 < calculateSimilarity a1.claim a2.claim) := by
    rw [h1, h2]
    with_unfolding_all decide
  have hconf : areConflicting a1 a2 = true := by
    unfold areConflicting
    rw [h1, h2]
    decide
  have hrel : analyzeRelationship a1 a2 = some
      { fromId := a1.id, toId := a2.id, type := EdgeType.undermines,
        strength := 7/10 } := by
    unfold analyzeRelationship
    rw [h3, h4]
    simp only [Bool.false_or, Bool.or_self, if_neg hsim, hconf]
    simp
  simp [buildArgumentGraph, offDiagPairs, hrel]

/--
Witness for C7: concrete security/performance arguments with the two
claims produce exactly the undermines edge.
-/
theorem approve_reject_undermines_edge_witness :
    jsIncludes rejectArgA.claim approveArgA.agent = false ∧
    rejectArgA.rebuttal = none ∧
    (buildArgumentGraph [approveArgA, rejectArgA]).edges =
      [{ fromId := approveArgA.id, toId := rejectArgA.id,
         type := EdgeType.undermines, strength := 7/10 }] :=
  ⟨by decide, rfl,
    approve_reject_undermines_edge approveArgA rejectArgA rfl rfl
      (by decide) rfl⟩

/--
C8 (amended).  In `findSimilarChanges`, a scanned past commit enters
the candidate match list exactly when its token-set Jaccard similarity
to the current diff strictly exceeds 0.3 (`similarity > 0.3`): commits
scoring 0.3 or below — including exactly 0.3 — are discarded, so the
claim wording "discarded exactly when below 0.3 / retained at at least
0.3" is wrong at the boundary.  The final result is only the
descending-similarity sort of the candidates truncated to 10.
-/
theorem similarChanges_retained_iff_above_threshold
    (env : GitEnv) (diff : String) (c : CommitMeta)
    (hc : c ∈ env.commits) :
    (mkMatch env diff c ∈ collectMatches env diff ↔
      Rat.divInt 3 10 < calculateDiffSimilarity diff (env.diffOf c.hash)) ∧
    findSimilarChanges env diff =
      (sortByDesc (fun m => m.similarity) (collectMatches env diff)).take 10
    := by
  refine ⟨⟨?_, ?_⟩, rfl⟩
  · intro hm
    unfold collectMatches at hm
    rcases List.mem_filterMap.mp hm with ⟨c2, hc2, hf⟩
    by_cases hsim : 3/10 < calculateDiffSimilarity diff (env.diffOf c2.hash)
    · rw [if_pos hsim] at hf
      have hhash : c2.hash = c.hash :=
        congrArg HistoricalMatch.commit (Option.some.inj hf)
      rw [hhash] at hsim
      have h310 : Rat.divInt 3 10 = (3:ℚ)/10 := by
        norm_num [Rat.divInt_eq_div]
      rw [h310]
      exact hsim
    · rw [if_neg hsim] at hf
      cases hf
  · intro hsim
    unfold collectMatches
    refine List.mem_filterMap.mpr ⟨c, hc, ?_⟩
    have h310 : Rat.divInt 3 10 = (3:ℚ)/10 := by
      norm_num [Rat.divInt_eq_div]
    rw [h310] at hsim
    rw [if_pos hsim]

/--
Witness for C8: an environment whose single commit has an identical
diff (similarity 1) together with the current diff instantiate the
retention equivalence.
-/
theorem similarChanges_retained_iff_above_threshold_witness :
    retainCommit ∈ retainEnv.commits ∧
    ((mkMatch retainEnv "alpha beta gamma" retainCommit ∈
        collectMatches retainEnv "alpha beta gamma" ↔
      Rat.divInt 3 10 <
        calculateDiffSimilarity "alpha beta gamma"
          (retainEnv.diffOf retainCommit.hash)) ∧
    findSimilarChanges retainEnv "alpha beta gamma" =
      (sortByDesc (fun m => m.similarity)
        (collectMatches retainEnv "alpha beta gamma")).take 10) :=
  ⟨by decide,
    similarChanges_retained_iff_above_threshold retainEnv
      "alpha beta gamma" retainCommit (by decide)⟩

/--
Counterexample to C8 as stated: a commit whose diff scores exactly 0.3
against the current diff is not below 0.3, yet it is discarded —
`findSimilarChanges` returns no match at all.
-/
theorem similarChanges_at_threshold_discarded :
    calculateDiffSimilarity "a b c d e f g"
      (thresholdEnv.diffOf "c0") = Rat.divInt 3 10 ∧
    ¬ (calculateDiffSimilarity "a b c d e f g"
      (thresholdEnv.diffOf "c0") < Rat.divInt 3 10) ∧
    findSimilarChanges thresholdEnv "a b c d e f g" = [] := by
  refine ⟨?_, ?_, ?_⟩ <;> with_unfolding_all decide

theorem foldl_perfStep_proj (store : String → String) :
    ∀ (cs1 cs2 : List Change) (st : PerformanceImpact),
      cs1.map (fun c => (c.file, c.type)) =
        cs2.map (fun c => (c.file, c.type)) →
      cs1.foldl (fun st c => perfStep store st c.file c.type) st =
        cs2.foldl (fun st c => perfStep store st c.file c.type) st := by
  intro cs1
  induction cs1 with
  | nil =>
    intro cs2 st h
    cases cs2 with
    | nil => rfl
    | cons d ds => simp at h
  | cons c cs ih =>
    intro cs2 st h
    cases cs2 with
    | nil => simp at h
    | cons d ds =>
      simp only [List.map_cons, List.cons.injEq] at h
      obtain ⟨hpair, hrest⟩ := h
      have hfile : c.file = d.file := congrArg Prod.fst hpair
      have htype : c.type = d.type := congrArg Prod.snd hpair
      simp only [List.foldl_cons]
      rw [hfile, htype]
      exact ih ds _ hrest

/--
C9 (confirmed).  `analyzePerformanceImpact` reads, from every
non-deleted change, only the file path (through the repository file
store) and the change type: two changesets that agree pointwise on
`(file, type)` — whatever their additions, deletions and patches —
produce identical `PerformanceImpact` results against the same store.
-/
theorem performanceImpact_depends_only_on_path_type
    (store : String → String) (cs1 cs2 : List Change)
    (h : cs1.map (fun c => (c.file, c.type)) =
      cs2.map (fun c => (c.file, c.type))) :
    analyzePerformanceImpact store cs1 = analyzePerformanceImpact store cs2 :=
  foldl_perfStep_proj store cs1 cs2 _ h

/--
Witness for C9: two concrete changesets with the same paths and types
but different additions, deletions and patches give the same result.
-/
theorem performanceImpact_depends_only_on_path_type_witness :
    perfChangesA.map (fun c => (c.file, c.type)) =
      perfChangesB.map (fun c => (c.file, c.type)) ∧
    analyzePerformanceImpact perfStoreW perfChangesA =
      analyzePerformanceImpact perfStoreW perfChangesB :=
  ⟨by decide,
    performanceImpact_depends_only_on_path_type perfStoreW
      perfChangesA perfChangesB (by decide)⟩

theorem analyzeRelationship_type_cases (a b : ToulminArgument)
    (e : ArgumentEdge) (h : analyzeRelationship a b = some e) :
    e.type = EdgeType.rebuts ∨ e.type = EdgeType.supports ∨
      e.type = EdgeType.undermines := by
  rw [analyzeRelationship] at h
  simp only [] at h
  split_ifs at h
  · left
    rw [← Option.some.inj h]
  · right
    left
    rw [← Option.some.inj h]
  · right
    right
    rw [← Option.some.inj h]

/--
C10 (confirmed).  Every edge `buildArgumentGraph` produces is of type
supports, rebuts or undermines; the declared fourth relationship type
`qualifies` is never created for any argument list.
-/
theorem graph_edges_never_qualifies (args : List ToulminArgument)
    (e : ArgumentEdge) (he : e ∈ (buildArgumentGraph args).edges) :
    e.type ≠ EdgeType.qualifies := by
  have hmem : ∃ p, p ∈ offDiagPairs args ∧ analyzeRelationship p.1 p.2 = some e := by
    simpa [buildArgumentGraph] using List.mem_filterMap.mp he
  obtain ⟨p, _, hrel⟩ := hmem
  rcases analyzeRelationship_type_cases p.1 p.2 e hrel with h | h | h <;>
    simp [h]

/--
Witness for C10: the undermines edge built for a concrete conflicting
pair is in the graph and is not a qualifies edge.
-/
theorem graph_edges_never_qualifies_witness :
    underminesEdgeB ∈ (buildArgumentGraph [approveArgB, rejectArgB]).edges ∧
    underminesEdgeB.type ≠ EdgeType.qualifies :=
  ⟨by with_unfolding_all decide,
    graph_edges_never_qualifies [approveArgB, rejectArgB] underminesEdgeB
      (by with_unfolding_all decide)⟩

end Engine
